import Mathlib

/-
Verification of the `chans` Go package: a guard layer that turns the
panicking / blocking misuse cases of Go channel operations (and nil
pointer dereference) into returned error values.

Shallow embedding of `src/chans.go`:
  * a Go channel value of type `C ~chan T` is `Option (ChanState T)`:
    `none` is the nil handle, `some s` an allocated channel whose state
    `s` records its buffer capacity, buffered values and closed flag;
  * the underlying runtime primitives (`close c`, `c <- v`, `<-c`,
    `*ptr`) are modelled by `closePrim`, `sendPrim`, `recvPrim`,
    `derefPrim`, returning `PrimResult`: a normal result, a (legitimate)
    block, or a runtime panic with its message;
  * each guarded operation (`Close`, `Send`, `Receive`, `Deref`) follows
    the source line by line: outer nil check, then the fault-isolation
    closure (`closeClosure`, `sendClosure`, `receiveClosure`): conversion
    `(chan T)(ch)`, inner nil check, primitive call, with the deferred
    `recover()` turning a panic into an error value;
  * the observable outcome of a guarded call is `CallResult`: a normal
    return `ret`, a block, or `fault` — a panic escaping the call as a
    process-level fault (which the recover is there to prevent);
  * Go zero values are `default` of an `Inhabited` instance.
-/

set_option autoImplicit false

namespace Chans

universe u

/-- Which of the four guarded operations built an error (the operation
name printed at the front of each `fmt.Errorf` message). -/
inductive OpName where
  | deref
  | send
  | receive
  | close
deriving DecidableEq, Repr

/-- The kind of a guard error, read off the message each
`fmt.Errorf` call in the source constructs: "on nil channel",
"on closed channel", "on nil pointer", or "... panic" (a recovered
fault). -/
inductive ErrKind where
  | nilChannel
  | closedChannel
  | nilReference
  | operationFault
deriving DecidableEq, Repr

/-- A guard error value: the operation, the kind, the recovered panic
message when the kind is `operationFault`, and the in-flight value the
message embeds for `Send`. -/
structure GoError (T : Type u) where
  op : OpName
  kind : ErrKind
  fault : Option String
  value : Option T
deriving DecidableEq, Repr

/-- State of an allocated Go channel: buffer capacity, currently
buffered values, and whether it has been closed. -/
structure ChanState (T : Type u) where
  cap : Nat
  buf : List T
  closed : Bool
deriving DecidableEq, Repr

/-- A Go channel value of type `C ~chan T`: the nil handle, or a handle
to allocated channel state (carried directly in this embedding). -/
abbrev GoChan (T : Type u) := Option (ChanState T)

/-- The Go conversion `(chan T)(ch)` of a value of type `C ~chan T`:
a value conversion, the handle (and its nilness) is unchanged. -/
def chanConv {T : Type u} (ch : GoChan T) : GoChan T := ch

/-- Result of a runtime channel/pointer primitive: a normal result, a
(possibly unbounded, legitimate) block of the calling goroutine, or a
runtime panic carrying its message. -/
inductive PrimResult (α : Type u) where
  | ok (a : α)
  | block
  | panicked (msg : String)
deriving DecidableEq, Repr

/-- The primitive send `c <- v` on a non-nil channel: panics if the
channel is closed; appends to the buffer when there is room; otherwise
blocks (no rendezvous partner in this sequential model). -/
def sendPrim {T : Type u} (s : ChanState T) (v : T) : PrimResult (ChanState T) :=
  if s.closed then .panicked "send on closed channel"
  else if s.buf.length < s.cap then .ok ⟨s.cap, s.buf ++ [v], s.closed⟩
  else .block

/-- The primitive receive `result, ok = <-c` on a non-nil channel:
takes the oldest buffered value with `ok = true`; on a drained closed
channel returns the zero value with `ok = false` (no panic); on a
drained open channel blocks. -/
def recvPrim {T : Type u} [Inhabited T] (s : ChanState T) :
    PrimResult (T × Bool × ChanState T) :=
  match s.buf with
  | x :: rest => .ok (x, true, ⟨s.cap, rest, s.closed⟩)
  | [] => if s.closed then .ok (default, false, s) else .block

/-- The primitive `close(c)` on a non-nil channel: panics if already
closed, otherwise marks the channel closed. Never blocks. -/
def closePrim {T : Type u} (s : ChanState T) : PrimResult (ChanState T) :=
  if s.closed then .panicked "close of closed channel"
  else .ok ⟨s.cap, s.buf, true⟩

/-- The primitive send on an arbitrary handle (what an unguarded
`ch <- v` would do): on the nil handle it blocks forever. -/
def sendPrimFull {T : Type u} (ch : GoChan T) (v : T) : PrimResult (ChanState T) :=
  match ch with
  | none => .block
  | some s => sendPrim s v

/-- The primitive receive on an arbitrary handle (what an unguarded
`<-ch` would do): on the nil handle it blocks forever. -/
def recvPrimFull {T : Type u} [Inhabited T] (ch : GoChan T) :
    PrimResult (T × Bool × ChanState T) :=
  match ch with
  | none => .block
  | some s => recvPrim s

/-- The primitive close on an arbitrary handle (what an unguarded
`close(ch)` would do): on the nil handle it panics. -/
def closePrimFull {T : Type u} (ch : GoChan T) : PrimResult (ChanState T) :=
  match ch with
  | none => .panicked "close of nil channel"
  | some s => closePrim s

/-- The primitive dereference `*ptr`: panics on the nil pointer,
otherwise reads the referent. -/
def derefPrim {T : Type u} (ptr : Option T) : PrimResult T :=
  match ptr with
  | none => .panicked "invalid memory address or nil pointer dereference"
  | some v => .ok v

/-- Observable outcome of a guarded call: a normal return with payload
`a`, a block of the caller (legitimate, inherited from the primitive),
or a panic escaping the call as an uncontrolled process-level fault. -/
inductive CallResult (α : Type u) where
  | ret (a : α)
  | block
  | fault (msg : String)
deriving DecidableEq, Repr

/-- Body of `Send`'s fault-isolated closure (src/chans.go lines 33-45):
convert `(chan T)(ch)`, inner nil check, primitive send; the deferred
`recover()` turns a panic into a "Send panic" error. Returns the
post-state of the channel alongside the error slot. -/
def sendClosure {T : Type u} (ch : GoChan T) (v : T) :
    CallResult (GoChan T × Option (GoError T)) :=
  match chanConv ch with
  | none => .ret (ch, some ⟨.send, .nilChannel, none, some v⟩)
  | some s =>
    match sendPrim s v with
    | .ok s2 => .ret (some s2, none)
    | .block => .block
    | .panicked m => .ret (ch, some ⟨.send, .operationFault, some m, some v⟩)

/-- `Send` (src/chans.go lines 28-47): outer nil check returning the
"Send on nil channel" error, otherwise the fault-isolated closure. -/
def Send {T : Type u} (ch : GoChan T) (v : T) :
    CallResult (GoChan T × Option (GoError T)) :=
  if ch.isNone then .ret (ch, some ⟨.send, .nilChannel, none, some v⟩)
  else sendClosure ch v

/-- Body of `Receive`'s fault-isolated closure (src/chans.go lines
58-73): convert, inner nil check, primitive receive; `ok = false` yields
the "Receive on closed channel" error; the deferred `recover()` turns a
panic into a "Receive panic" error with `result` still the zero value. -/
def receiveClosure {T : Type u} [Inhabited T] (ch : GoChan T) :
    CallResult (T × GoChan T × Option (GoError T)) :=
  match chanConv ch with
  | none => .ret (default, ch, some ⟨.receive, .nilChannel, none, none⟩)
  | some s =>
    match recvPrim s with
    | .ok (v, tOk, s2) =>
      if tOk then .ret (v, some s2, none)
      else .ret (v, some s2, some ⟨.receive, .closedChannel, none, none⟩)
    | .block => .block
    | .panicked m => .ret (default, ch, some ⟨.receive, .operationFault, some m, none⟩)

/-- `Receive` (src/chans.go lines 51-75): outer nil check returning the
zero value and the "Receive on nil channel" error, otherwise the
fault-isolated closure. -/
def Receive {T : Type u} [Inhabited T] (ch : GoChan T) :
    CallResult (T × GoChan T × Option (GoError T)) :=
  if ch.isNone then .ret (default, ch, some ⟨.receive, .nilChannel, none, none⟩)
  else receiveClosure ch

/-- Body of `Close`'s fault-isolated closure (src/chans.go lines 84-96):
convert, inner nil check, primitive close; the deferred `recover()`
turns the double-close panic into a "Close panic" error. -/
def closeClosure {T : Type u} (ch : GoChan T) :
    CallResult (GoChan T × Option (GoError T)) :=
  match chanConv ch with
  | none => .ret (ch, some ⟨.close, .nilChannel, none, none⟩)
  | some s =>
    match closePrim s with
    | .ok s2 => .ret (some s2, none)
    | .block => .block
    | .panicked m => .ret (ch, some ⟨.close, .operationFault, some m, none⟩)

/-- `Close` (src/chans.go lines 79-98): outer nil check returning the
"Close on nil channel" error, otherwise the fault-isolated closure. -/
def Close {T : Type u} (ch : GoChan T) :
    CallResult (GoChan T × Option (GoError T)) :=
  if ch.isNone then .ret (ch, some ⟨.close, .nilChannel, none, none⟩)
  else closeClosure ch

/-- `Deref` (src/chans.go lines 9-24): nil check returning the zero
value and the "Deref on nil pointer" error, then `x = *ptr` inside the
fault-isolation closure; a recovered panic becomes a "Deref panic" error
with `x` still the zero value. -/
def Deref {T : Type u} [Inhabited T] (ptr : Option T) :
    CallResult (T × Option (GoError T)) :=
  if ptr.isNone then .ret (default, some ⟨.deref, .nilReference, none, none⟩)
  else
    match derefPrim ptr with
    | .ok v => .ret (v, none)
    | .block => .block
    | .panicked m => .ret (default, some ⟨.deref, .operationFault, some m, none⟩)

/-- Is this handle nil? -/
def chNil {T : Type u} (ch : GoChan T) : Bool := ch.isNone

/-- Is this handle an allocated, closed channel? -/
def chClosed {T : Type u} (ch : GoChan T) : Bool :=
  match ch with
  | none => false
  | some s => s.closed

/-- The channel handle/state after a `Send` call (unchanged if the call
blocks). -/
def postSend {T : Type u} (ch : GoChan T) (v : T) : GoChan T :=
  match Send ch v with
  | .ret (c, _) => c
  | _ => ch

/-- The channel handle/state after a `Receive` call (unchanged if the
call blocks). -/
def postReceive {T : Type u} [Inhabited T] (ch : GoChan T) : GoChan T :=
  match Receive ch with
  | .ret (_, c, _) => c
  | _ => ch

/-- The channel handle/state after a `Close` call. -/
def postClose {T : Type u} (ch : GoChan T) : GoChan T :=
  match Close ch with
  | .ret (c, _) => c
  | _ => ch

/-
Concurrency model for the race claims: any number of calls against one
shared channel. Each guarded call is split into its two phases exactly
as the source orders them — first the pre-flight nil check of the
handle, then the fault-isolated closure (conversion, inner check,
primitive, recover), which Go's runtime performs atomically under the
channel lock. A schedule is an arbitrary list of thread indices; a
`Close` by another thread may thus hit the window between a call's
nil check and its primitive operation. A call whose primitive blocks
stays pending and is retried when next scheduled. -/

/-- A channel operation requested by one thread. -/
inductive COp (T : Type u) where
  | closeOp
  | sendOp (v : T)
  | receiveOp
deriving DecidableEq, Repr

/-- How far a thread's call has progressed: pre-flight check not yet
done, check passed and the fault-isolated closure pending, or call
finished. -/
inductive Phase where
  | check
  | primPhase
  | done
deriving DecidableEq, Repr

/-- Outcome of one finished call: normal return without error (the
received value for a receive), normal return with a well-formed guard
error, or a panic that escaped the call and crashed the process. -/
inductive Outcome (T : Type u) where
  | success (v : Option T)
  | errOut (e : GoError T)
  | crashed (msg : String)
deriving DecidableEq, Repr

/-- One thread's in-flight call: the requested operation, its phase,
and its outcome once finished. -/
structure TCall (T : Type u) where
  op : COp T
  phase : Phase
  result : Option (Outcome T)
deriving DecidableEq, Repr

/-- A fresh, not yet scheduled call. -/
def TCall.start {T : Type u} (op : COp T) : TCall T := ⟨op, .check, none⟩

/-- The nil-channel error the pre-flight check of each operation
constructs. -/
def nilErrFor {T : Type u} (op : COp T) : GoError T :=
  match op with
  | .closeOp => ⟨.close, .nilChannel, none, none⟩
  | .sendOp v => ⟨.send, .nilChannel, none, some v⟩
  | .receiveOp => ⟨.receive, .nilChannel, none, none⟩

/-- Advance one thread's call by one step against the shared channel:
in phase `check` run the operation's nil check; in phase `primPhase`
run its fault-isolated closure atomically (staying pending on a block,
crashing the process if a panic were ever to escape). -/
def stepCall {T : Type u} [Inhabited T] (ch : GoChan T) (c : TCall T) :
    GoChan T × TCall T :=
  match c.phase with
  | .done => (ch, c)
  | .check =>
    if ch.isNone then
      (ch, { c with phase := .done, result := some (.errOut (nilErrFor c.op)) })
    else
      (ch, { c with phase := .primPhase })
  | .primPhase =>
    match c.op with
    | .closeOp =>
      match closeClosure ch with
      | .ret (c2, none) => (c2, { c with phase := .done, result := some (.success none) })
      | .ret (c2, some e) => (c2, { c with phase := .done, result := some (.errOut e) })
      | .block => (ch, c)
      | .fault m => (ch, { c with phase := .done, result := some (.crashed m) })
    | .sendOp v =>
      match sendClosure ch v with
      | .ret (c2, none) => (c2, { c with phase := .done, result := some (.success none) })
      | .ret (c2, some e) => (c2, { c with phase := .done, result := some (.errOut e) })
      | .block => (ch, c)
      | .fault m => (ch, { c with phase := .done, result := some (.crashed m) })
    | .receiveOp =>
      match receiveClosure ch with
      | .ret (x, c2, none) => (c2, { c with phase := .done, result := some (.success (some x)) })
      | .ret (_, c2, some e) => (c2, { c with phase := .done, result := some (.errOut e) })
      | .block => (ch, c)
      | .fault m => (ch, { c with phase := .done, result := some (.crashed m) })

/-- Run a schedule: at each step the named thread (indices out of range
are skipped) advances by one `stepCall` against the shared channel. -/
def runSched {T : Type u} [Inhabited T] (sched : List Nat) (ch : GoChan T)
    (ts : List (TCall T)) : GoChan T × List (TCall T) :=
  match sched with
  | [] => (ch, ts)
  | i :: rest =>
    match ts[i]? with
    | none => runSched rest ch ts
    | some c =>
      let p := stepCall ch c
      runSched rest p.1 (ts.set i p.2)

/-- A call record is well formed when it has not crashed the process:
its outcome, if any, is a success or a well-formed error. -/
def TCall.wellFormed {T : Type u} (c : TCall T) : Bool :=
  match c.result with
  | some (Outcome.crashed _) => false
  | _ => true

/-
Helper lemmas: the deferred `recover()` in each closure means no panic
of the underlying primitive can escape, so no closure ever evaluates to
`CallResult.fault`.
-/

theorem sendClosure_not_fault {T : Type u} (ch : GoChan T) (v : T) (m : String) :
    sendClosure ch v ≠ CallResult.fault m := by
  cases ch with
  | none => simp [sendClosure, chanConv]
  | some s =>
    obtain ⟨cap, buf, cl⟩ := s
    cases cl <;> by_cases hlen : buf.length < cap <;>
      simp [sendClosure, chanConv, sendPrim, hlen]

theorem receiveClosure_not_fault {T : Type u} [Inhabited T] (ch : GoChan T)
    (m : String) : receiveClosure ch ≠ CallResult.fault m := by
  cases ch with
  | none => simp [receiveClosure, chanConv]
  | some s =>
    obtain ⟨cap, buf, cl⟩ := s
    cases buf with
    | nil => cases cl <;> simp [receiveClosure, chanConv, recvPrim]
    | cons x rest => simp [receiveClosure, chanConv, recvPrim]

theorem closeClosure_not_fault {T : Type u} (ch : GoChan T) (m : String) :
    closeClosure ch ≠ CallResult.fault m := by
  cases ch with
  | none => simp [closeClosure, chanConv]
  | some s =>
    obtain ⟨cap, buf, cl⟩ := s
    cases cl <;> simp [closeClosure, chanConv, closePrim]

/-
Helper lemmas: the kinds an error produced inside a closure on a
non-nil handle can have.
-/

theorem sendClosure_err_kind {T : Type u} (ch : GoChan T) (v : T)
    (st : GoChan T) (e : GoError T) (hch : ch.isNone = false)
    (h : sendClosure ch v = CallResult.ret (st, some e)) :
    e.kind = ErrKind.operationFault := by
  cases ch with
  | none => simp at hch
  | some s =>
    rcases hp : sendPrim s v with s2 | _ | m <;>
      simp [sendClosure, chanConv, hp] at h
    obtain ⟨h1, h2⟩ := h
    subst h2
    rfl

theorem receiveClosure_err_kind {T : Type u} [Inhabited T] (ch : GoChan T)
    (x : T) (st : GoChan T) (e : GoError T) (hch : ch.isNone = false)
    (h : receiveClosure ch = CallResult.ret (x, st, some e)) :
    e.kind = ErrKind.closedChannel ∨ e.kind = ErrKind.operationFault := by
  cases ch with
  | none => simp at hch
  | some s =>
    rcases hp : recvPrim s with ⟨y, tOk, s2⟩ | _ | m
    · cases tOk with
      | true => simp [receiveClosure, chanConv, hp] at h
      | false =>
        simp [receiveClosure, chanConv, hp] at h
        obtain ⟨h1, h2, h3⟩ := h
        subst h3
        exact Or.inl rfl
    · simp [receiveClosure, chanConv, hp] at h
    · simp [receiveClosure, chanConv, hp] at h
      obtain ⟨h1, h2, h3⟩ := h
      subst h3
      exact Or.inr rfl

theorem closeClosure_err_kind {T : Type u} (ch : GoChan T) (st : GoChan T)
    (e : GoError T) (hch : ch.isNone = false)
    (h : closeClosure ch = CallResult.ret (st, some e)) :
    e.kind = ErrKind.operationFault := by
  cases ch with
  | none => simp at hch
  | some s =>
    rcases hp : closePrim s with s2 | _ | m <;>
      simp [closeClosure, chanConv, hp] at h
    obtain ⟨h1, h2⟩ := h
    subst h2
    rfl

/-- Helper: one scheduler step never records a crashed outcome — the
pre-flight check records a nil error, and the closure phase, whose
panics are all recovered, records a success or an error. -/
theorem stepCall_wellFormed {T : Type u} [Inhabited T] (ch : GoChan T)
    (c : TCall T) (h : c.wellFormed = true) :
    (stepCall ch c).2.wellFormed = true := by
  obtain ⟨op, phase, result⟩ := c
  cases phase with
  | done => exact h
  | check =>
    cases hch : ch.isNone with
    | true => simp [stepCall, hch, TCall.wellFormed]
    | false => simpa [stepCall, hch, TCall.wellFormed] using h
  | primPhase =>
    cases op with
    | closeOp =>
      rcases hcc : closeClosure ch with ⟨c2, e⟩ | _ | m
      · cases e with
        | none => simp [stepCall, hcc, TCall.wellFormed]
        | some e0 => simp [stepCall, hcc, TCall.wellFormed]
      · simpa [stepCall, hcc] using h
      · exact absurd hcc (closeClosure_not_fault ch m)
    | sendOp v =>
      rcases hcc : sendClosure ch v with ⟨c2, e⟩ | _ | m
      · cases e with
        | none => simp [stepCall, hcc, TCall.wellFormed]
        | some e0 => simp [stepCall, hcc, TCall.wellFormed]
      · simpa [stepCall, hcc] using h
      · exact absurd hcc (sendClosure_not_fault ch v m)
    | receiveOp =>
      rcases hcc : receiveClosure ch with ⟨x, c2, e⟩ | _ | m
      · cases e with
        | none => simp [stepCall, hcc, TCall.wellFormed]
        | some e0 => simp [stepCall, hcc, TCall.wellFormed]
      · simpa [stepCall, hcc] using h
      · exact absurd hcc (receiveClosure_not_fault ch m)

/-- Claim C1: for every channel handle (nil, open or closed) and every
pointer, each of `Send`, `Receive`, `Close`, `Deref` never lets a panic
of the underlying primitive escape as a process-level fault: every call
either returns normally (success or a descriptive error value), or — for
`Send`/`Receive` only — blocks exactly where the unguarded primitive
legitimately blocks; `Close` and `Deref` always return. -/
theorem ops_never_fault {T : Type u} [Inhabited T] (ch : GoChan T) (v : T)
    (p : Option T) :
    (∀ m, Send ch v ≠ CallResult.fault m) ∧
    (Send ch v = CallResult.block → sendPrimFull ch v = PrimResult.block) ∧
    (∀ m, Receive ch ≠ CallResult.fault m) ∧
    (Receive ch = CallResult.block → recvPrimFull ch = PrimResult.block) ∧
    (∀ m, Close ch ≠ CallResult.fault m) ∧
    Close ch ≠ CallResult.block ∧
    (∀ m, Deref p ≠ CallResult.fault m) ∧
    Deref p ≠ CallResult.block := by
  refine ⟨?_, ?_, ?_, ?_, ?_, ?_, ?_, ?_⟩
  · intro m
    cases hch : ch.isNone with
    | true => simp [Send, hch]
    | false => simpa [Send, hch] using sendClosure_not_fault ch v m
  · intro hb
    cases ch with
    | none => simp [Send] at hb
    | some s =>
      obtain ⟨cap, buf, cl⟩ := s
      cases cl with
      | true => simp [Send, sendClosure, chanConv, sendPrim] at hb
      | false =>
        by_cases hlen : buf.length < cap
        · simp [Send, sendClosure, chanConv, sendPrim, hlen] at hb
        · simp [sendPrimFull, sendPrim, hlen]
  · intro m
    cases hch : ch.isNone with
    | true => simp [Receive, hch]
    | false => simpa [Receive, hch] using receiveClosure_not_fault ch m
  · intro hb
    cases ch with
    | none => simp [Receive] at hb
    | some s =>
      obtain ⟨cap, buf, cl⟩ := s
      cases buf with
      | cons y rest => simp [Receive, receiveClosure, chanConv, recvPrim] at hb
      | nil =>
        cases cl with
        | true => simp [Receive, receiveClosure, chanConv, recvPrim] at hb
        | false => simp [recvPrimFull, recvPrim]
  · intro m
    cases hch : ch.isNone with
    | true => simp [Close, hch]
    | false => simpa [Close, hch] using closeClosure_not_fault ch m
  · cases ch with
    | none => simp [Close]
    | some s =>
      obtain ⟨cap, buf, cl⟩ := s
      cases cl <;> simp [Close, closeClosure, chanConv, closePrim]
  · intro m
    cases p <;> simp [Deref, derefPrim]
  · cases p <;> simp [Deref, derefPrim]

/-- Witness for C1 at concrete inputs: an unbuffered open channel, where
`Send` and `Receive` block exactly as the primitive does. -/
theorem ops_never_fault_witness :
    sendPrimFull (some (⟨0, [], false⟩ : ChanState Nat)) 7 = PrimResult.block ∧
    recvPrimFull (some (⟨0, [], false⟩ : ChanState Nat)) = PrimResult.block :=
  ⟨(ops_never_fault (some ⟨0, [], false⟩) 7 none).2.1 (by decide),
   (ops_never_fault (some ⟨0, [], false⟩) 7 none).2.2.2.1 (by decide)⟩

/-- Claim C2: `Receive` on a non-nil channel that is closed and fully
drained returns the zero value of `T` together with a `closedChannel`
error (a defined outcome, not an `operationFault`), without blocking. -/
theorem receive_closed_drained {T : Type u} [Inhabited T] (s : ChanState T)
    (hc : s.closed = true) (hb : s.buf = []) :
    Receive (some s) =
      CallResult.ret ((default : T), some s,
        some ⟨OpName.receive, ErrKind.closedChannel, none, none⟩) := by
  simp [Receive, receiveClosure, chanConv, recvPrim, hb, hc]

/-- Witness for C2: a closed, drained channel of naturals. -/
theorem receive_closed_drained_witness :
    (⟨1, [], true⟩ : ChanState Nat).closed = true ∧
    Receive (some (⟨1, [], true⟩ : ChanState Nat)) =
      CallResult.ret ((default : Nat), some ⟨1, [], true⟩,
        some ⟨OpName.receive, ErrKind.closedChannel, none, none⟩) :=
  ⟨rfl, receive_closed_drained ⟨1, [], true⟩ rfl rfl⟩

/-- Claim C3: `Send` on a non-nil closed channel intercepts the
primitive's "send on closed channel" panic and returns an
`operationFault` error; the channel state is unchanged (the value is not
delivered) and the value appears only in the error's diagnostics. -/
theorem send_closed_operation_fault {T : Type u} (s : ChanState T) (v : T)
    (hc : s.closed = true) :
    Send (some s) v =
      CallResult.ret (some s,
        some ⟨OpName.send, ErrKind.operationFault,
          some "send on closed channel", some v⟩) := by
  simp [Send, sendClosure, chanConv, sendPrim, hc]

/-- Witness for C3: sending 42 on a closed channel of naturals. -/
theorem send_closed_operation_fault_witness :
    (⟨0, [], true⟩ : ChanState Nat).closed = true ∧
    Send (some (⟨0, [], true⟩ : ChanState Nat)) 42 =
      CallResult.ret (some ⟨0, [], true⟩,
        some ⟨OpName.send, ErrKind.operationFault,
          some "send on closed channel", some 42⟩) :=
  ⟨rfl, send_closed_operation_fault ⟨0, [], true⟩ 42 rfl⟩

/-- Claim C4: `Close` on a non-nil channel that is already closed
intercepts the "close of closed channel" panic and returns an
`operationFault` error carrying the recovered fault detail — an error,
never a crash. -/
theorem close_closed_operation_fault {T : Type u} (s : ChanState T)
    (hc : s.closed = true) :
    Close (some s) =
      CallResult.ret (some s,
        some ⟨OpName.close, ErrKind.operationFault,
          some "close of closed channel", none⟩) := by
  simp [Close, closeClosure, chanConv, closePrim, hc]

/-- Witness for C4: a second close of a channel of naturals. -/
theorem close_closed_operation_fault_witness :
    (⟨0, [], true⟩ : ChanState Nat).closed = true ∧
    Close (some (⟨0, [], true⟩ : ChanState Nat)) =
      CallResult.ret (some ⟨0, [], true⟩,
        some ⟨OpName.close, ErrKind.operationFault,
          some "close of closed channel", none⟩) :=
  ⟨rfl, close_closed_operation_fault ⟨0, [], true⟩ rfl⟩

/-- Claim C5: each of the four operations on the nil handle returns the
corresponding nil error and the zero value, with no blocking and no
side effect; the primitives themselves would instead block (send,
receive) or panic (close, dereference), so the nil check fires before
the handle can reach the fault-isolation boundary. -/
theorem nil_checks_precede_primitive {T : Type u} [Inhabited T] (v : T) :
    Send (none : GoChan T) v =
      CallResult.ret (none, some ⟨OpName.send, ErrKind.nilChannel, none, some v⟩) ∧
    Receive (none : GoChan T) =
      CallResult.ret ((default : T), none,
        some ⟨OpName.receive, ErrKind.nilChannel, none, none⟩) ∧
    Close (none : GoChan T) =
      CallResult.ret (none, some ⟨OpName.close, ErrKind.nilChannel, none, none⟩) ∧
    Deref (none : Option T) =
      CallResult.ret ((default : T),
        some ⟨OpName.deref, ErrKind.nilReference, none, none⟩) ∧
    sendPrimFull (none : GoChan T) v = PrimResult.block ∧
    recvPrimFull (none : GoChan T) = PrimResult.block ∧
    closePrimFull (none : GoChan T) = PrimResult.panicked "close of nil channel" ∧
    derefPrim (none : Option T) =
      PrimResult.panicked "invalid memory address or nil pointer dereference" :=
  ⟨rfl, rfl, rfl, rfl, rfl, rfl, rfl, rfl⟩

/-- Claim C6: `Deref` of a non-nil pointer returns the referent with no
error; `Deref` of the nil pointer returns the zero value of `T` together
with a `nilReference` error. -/
theorem deref_returns_referent_or_nil_error {T : Type u} [Inhabited T] (v : T) :
    Deref (some v) = CallResult.ret (v, none) ∧
    Deref (none : Option T) =
      CallResult.ret ((default : T),
        some ⟨OpName.deref, ErrKind.nilReference, none, none⟩) :=
  ⟨rfl, rfl⟩

/-- Claim C7: channel lifecycle transitions under the guarded operations
are monotonic and one-directional: a nil handle stays nil through every
operation, a closed channel stays closed through every operation, and
`Close` on an open channel succeeds with no error, transitioning it to
closed — after which a drained `Receive` observes the `closedChannel`
outcome, not an `operationFault`. -/
theorem lifecycle_monotonic {T : Type u} [Inhabited T] (ch : GoChan T) (v : T)
    (s : ChanState T) :
    (chNil ch = true → chNil (postSend ch v) = true ∧
      chNil (postReceive ch) = true ∧ chNil (postClose ch) = true) ∧
    (chClosed ch = true → chClosed (postSend ch v) = true ∧
      chClosed (postReceive ch) = true ∧ chClosed (postClose ch) = true) ∧
    (s.closed = false →
      Close (some s) = CallResult.ret (some ⟨s.cap, s.buf, true⟩, none) ∧
      (s.buf = [] →
        Receive (postClose (some s)) =
          CallResult.ret ((default : T), some ⟨s.cap, [], true⟩,
            some ⟨OpName.receive, ErrKind.closedChannel, none, none⟩))) := by
  refine ⟨?_, ?_, ?_⟩
  · intro hn
    cases ch with
    | some s0 => simp [chNil] at hn
    | none => exact ⟨rfl, rfl, rfl⟩
  · intro hcl
    cases ch with
    | none => simp [chClosed] at hcl
    | some s0 =>
      obtain ⟨cap, buf, cl⟩ := s0
      simp [chClosed] at hcl
      subst hcl
      refine ⟨?_, ?_, ?_⟩
      · simp [postSend, Send, sendClosure, chanConv, sendPrim, chClosed]
      · cases buf with
        | nil =>
          simp [postReceive, Receive, receiveClosure, chanConv, recvPrim, chClosed]
        | cons y rest =>
          simp [postReceive, Receive, receiveClosure, chanConv, recvPrim, chClosed]
      · simp [postClose, Close, closeClosure, chanConv, closePrim, chClosed]
  · intro hopen
    obtain ⟨cap, buf, cl⟩ := s
    simp at hopen
    subst hopen
    refine ⟨?_, ?_⟩
    · simp [Close, closeClosure, chanConv, closePrim]
    · intro hb
      simp at hb
      subst hb
      rfl

/-- Witness for C7: a nil handle stays nil, a closed channel stays
closed through a send, and closing an open channel succeeds. -/
theorem lifecycle_monotonic_witness :
    chNil (postClose (none : GoChan Nat)) = true ∧
    chClosed (postSend (some (⟨0, [], true⟩ : ChanState Nat)) 5) = true ∧
    Close (some (⟨1, [], false⟩ : ChanState Nat)) =
      CallResult.ret (some ⟨1, [], true⟩, none) :=
  ⟨((lifecycle_monotonic (none : GoChan Nat) 5 ⟨1, [], false⟩).1 rfl).2.2,
   ((lifecycle_monotonic (some ⟨0, [], true⟩) 5 ⟨1, [], false⟩).2.1 rfl).1,
   ((lifecycle_monotonic (some ⟨0, [], true⟩) 5 ⟨1, [], false⟩).2.2 rfl).1⟩

/-- Claim C8: when any number of calls (`Close`, `Send`, `Receive`) run
against the same shared channel, split into their pre-flight check and
primitive phases and interleaved by an arbitrary schedule — including a
close landing between another call's nil check and its primitive — every
call's recorded outcome is well formed (a success or a well-formed
error) and no call ever crashes the process. -/
theorem concurrent_calls_never_crash {T : Type u} [Inhabited T]
    (sched : List Nat) (ch : GoChan T) (ts : List (TCall T))
    (h : ∀ t ∈ ts, t.wellFormed = true) :
    ∀ t ∈ (runSched sched ch ts).2, t.wellFormed = true := by
  induction sched generalizing ch ts with
  | nil => simpa [runSched] using h
  | cons i rest ih =>
    cases hts : ts[i]? with
    | none =>
      intro t ht
      simp only [runSched, hts] at ht
      exact ih ch ts h t ht
    | some c =>
      intro t ht
      simp only [runSched, hts] at ht
      refine ih _ _ ?_ t ht
      intro t2 ht2
      rcases List.mem_or_eq_of_mem_set ht2 with h1 | h2
      · exact h t2 h1
      · subst h2
        exact stepCall_wellFormed ch c (h c (List.getElem?_mem hts))

/-- Witness for C8: a close and a send racing on an open unbuffered
channel, the send's pre-flight check scheduled before the close. -/
theorem concurrent_calls_never_crash_witness :
    (∀ t ∈ [TCall.start (COp.closeOp : COp Nat), TCall.start (COp.sendOp 42)],
      t.wellFormed = true) ∧
    ∀ t ∈ (runSched [1, 0, 1, 0, 1] (some ⟨0, [], false⟩)
        [TCall.start (COp.closeOp : COp Nat), TCall.start (COp.sendOp 42)]).2,
      t.wellFormed = true :=
  ⟨by decide,
   concurrent_calls_never_crash [1, 0, 1, 0, 1] (some ⟨0, [], false⟩)
     [TCall.start COp.closeOp, TCall.start (COp.sendOp 42)] (by decide)⟩

/-- Claim C9: the inner nil check inside each fault-isolated closure is
unreachable: the conversion `(chan T)(ch)` of a non-nil handle is again
non-nil, so on a non-nil handle no closure ever produces a
`nilChannel`-kind error. -/
theorem inner_nil_branch_unreachable {T : Type u} [Inhabited T]
    (ch : GoChan T) (v : T) (h : ch.isNone = false) :
    (chanConv ch).isNone = false ∧
    (∀ st e, sendClosure ch v = CallResult.ret (st, some e) →
      e.kind ≠ ErrKind.nilChannel) ∧
    (∀ x st e, receiveClosure ch = CallResult.ret (x, st, some e) →
      e.kind ≠ ErrKind.nilChannel) ∧
    (∀ st e, closeClosure ch = CallResult.ret (st, some e) →
      e.kind ≠ ErrKind.nilChannel) := by
  refine ⟨h, ?_, ?_, ?_⟩
  · intro st e he
    rw [sendClosure_err_kind ch v st e h he]
    decide
  · intro x st e he
    rcases receiveClosure_err_kind ch x st e h he with hk | hk <;> rw [hk] <;> decide
  · intro st e he
    rw [closeClosure_err_kind ch st e h he]
    decide

/-- Witness for C9: a non-nil open channel of naturals converts to a
non-nil channel. -/
theorem inner_nil_branch_unreachable_witness :
    (chanConv (some (⟨0, [], false⟩ : ChanState Nat))).isNone = false :=
  (inner_nil_branch_unreachable (some ⟨0, [], false⟩) 0 rfl).1

/-- Claim C10: whenever `Receive` returns alongside a non-nil error —
nil channel, closed and drained channel, or a recovered panic — the
value it returns is exactly the zero value of `T`. -/
theorem receive_error_returns_zero {T : Type u} [Inhabited T]
    (ch : GoChan T) (x : T) (st : GoChan T) (e : GoError T)
    (h : Receive ch = CallResult.ret (x, st, some e)) : x = default := by
  cases ch with
  | none =>
    simp [Receive] at h
    exact h.1.symm
  | some s =>
    obtain ⟨cap, buf, cl⟩ := s
    cases buf with
    | cons y rest => simp [Receive, receiveClosure, chanConv, recvPrim] at h
    | nil =>
      cases cl with
      | false => simp [Receive, receiveClosure, chanConv, recvPrim] at h
      | true =>
        simp [Receive, receiveClosure, chanConv, recvPrim] at h
        exact h.1.symm

/-- Witness for C10: receiving from a closed, drained channel of
naturals returns the zero value 0 alongside the error. -/
theorem receive_error_returns_zero_witness :
    Receive (some (⟨0, [], true⟩ : ChanState Nat)) =
      CallResult.ret (0, some ⟨0, [], true⟩,
        some ⟨OpName.receive, ErrKind.closedChannel, none, none⟩) ∧
    (0 : Nat) = default :=
  ⟨by decide,
   receive_error_returns_zero (some ⟨0, [], true⟩) 0 (some ⟨0, [], true⟩)
     ⟨OpName.receive, ErrKind.closedChannel, none, none⟩ (by decide)⟩

end Chans
